import Mathlib

/-!
# The inspector's `Selection` object (browser/devtools/inspector/selection.js)

A shallow embedding of the selection tracker: the tracker's fields become a
record, every method becomes a function from the record (and the outside
world of fronts, walkers and DOM nodes) to the new record, `emit` appends to
a log of emitted events, and a JavaScript exception becomes an `Except`
error.
-/

namespace Inspector

/-- A JavaScript reference as the tracker sees it: `undefined`, `null` or an
object, named by its identity. The strict comparison `===` of two references
is equality in this type. -/
inductive Ref where
  | undefined
  | null
  | obj (id : Nat)
  deriving DecidableEq, Repr

/-- JavaScript truthiness of a reference: only objects are truthy. -/
def Ref.truthy : Ref → Bool
  | .obj _ => true
  | _ => false

/-- The JavaScript values that flow through the tracker besides references:
booleans and strings. -/
inductive Val where
  | ref (r : Ref)
  | bool (b : Bool)
  | str (s : String)
  deriving DecidableEq, Repr

/-- JavaScript truthiness of a value. -/
def Val.truthy : Val → Bool
  | .ref r => r.truthy
  | .bool b => b
  | .str s => s != ""

/-- Exceptions raised by JavaScript code: a property read or a call on
`null`/`undefined`, and the "can't access dead object" error of a dead
wrapper. -/
inductive Exn where
  | typeError
  | deadObject
  deriving DecidableEq, Repr

/-- How a call fails to return a value: it raises, or the model's step budget
for the parent walk is used up. -/
inductive Fault where
  | exn (e : Exn)
  | fuel
  deriving DecidableEq, Repr

/-- The node-type constants of `Ci.nsIDOMNode`, defined outside the source
file and taken as given. -/
structure NodeTypeConstants where
  ELEMENT_NODE : Nat
  ATTRIBUTE_NODE : Nat
  TEXT_NODE : Nat
  CDATA_SECTION_NODE : Nat
  ENTITY_REFERENCE_NODE : Nat
  ENTITY_NODE : Nat
  PROCESSING_INSTRUCTION_NODE : Nat
  COMMENT_NODE : Nat
  DOCUMENT_NODE : Nat
  DOCUMENT_TYPE_NODE : Nat
  DOCUMENT_FRAGMENT_NODE : Nat
  NOTATION_NODE : Nat
  deriving DecidableEq, Repr

/-- The collaborators of the tracker, consumed through their interfaces:
node fronts (`rawNode()`, `actorID`, `parentNode()`, `isDocumentElement`,
`nodeType`), the walker (`frontForRawNode`, `rootNode`), the platform
(`Cu.isDeadWrapper`, `Ci.nsIDOMNode`) and native DOM nodes (`ownerDocument`,
`defaultView`, `documentElement`, `contains`, `namespaceURI`), whose accesses
may raise on a dead object. -/
structure World where
  rawNode : Nat → Ref
  actorID : Nat → Val
  parentNode : Nat → Ref
  isDocumentElement : Nat → Val
  nodeType : Nat → Nat
  namespaceURI : Nat → Val
  nsIDOMNode : NodeTypeConstants
  frontForRawNode : Nat → Ref → Ref
  rootNode : Nat → Ref
  isDeadWrapper : Nat → Bool
  ownerDocument : Nat → Except Exn Ref
  defaultView : Nat → Except Exn Ref
  documentElement : Nat → Except Exn Ref
  contains : Nat → Ref → Except Exn Bool

/-- A mutation record delivered by the walker: `m.type` and `m.target`. -/
structure MutationRecord where
  type : String
  target : Ref
  deriving DecidableEq, Repr

/-- The `track` argument of the constructor, `{attributes, detached}`. -/
structure Track where
  attributes : Bool
  detached : Bool
  deriving DecidableEq, Repr

/-- One call of `this.emit(name, ...payload)`, together with what a listener
reading the tracker during that call observes: `node`, `nodeFront` and the
attached walker. -/
structure Emission where
  name : String
  payload : List Val
  node : Ref
  nodeFront : Ref
  walker : Ref
  deriving DecidableEq, Repr

/-- The fields of a `Selection` object. `reason` is `none` while the property
has never been assigned; `emitted` is the log of `emit` calls, oldest first;
`listening` lists the walkers on which the bound `_onMutations` handler is
registered for "mutations", one entry per registration. -/
structure Selection where
  track : Track
  _walker : Ref
  _node : Ref
  _nodeFront : Ref
  reason : Option String
  emitted : List Emission
  listening : List Nat
  deriving DecidableEq, Repr

/-- The value of a `this.reason` read as an event argument. -/
def reasonVal : Option String → Val
  | some r => .str r
  | none => .ref .undefined

/-- Modelled from the spec: the walker's `on("mutations", handler)`, which
belongs to the event emitter and not to the source file; subscribing adds one
registration of the handler on walker `wk`. -/
def walkerOn (subs : List Nat) (wk : Nat) : List Nat :=
  wk :: subs

/-- Modelled from the spec: the walker's `off("mutations", handler)`, which
belongs to the event emitter and not to the source file; unsubscribing removes
the registration of the handler on walker `wk`. -/
def walkerOff (subs : List Nat) (wk : Nat) : List Nat :=
  subs.erase wk

deriving instance DecidableEq for Except

/-- A property read or method call `r.p` on a reference: raises a `TypeError`
unless `r` is an object. -/
def onObject {α : Type} (r : Ref) (p : Nat → Except Exn α) : Except Exn α :=
  match r with
  | .obj n => p n
  | _ => .error .typeError

/-- The expression `value ? value.rawNode() : value` of `setNodeFront`. -/
def rawOf (w : World) (value : Ref) : Ref :=
  match value with
  | .obj f => w.rawNode f
  | v => v

/-- The expression `parentNode ? parentNode.rawNode() : null` of
`_onMutations`. -/
def rawOrNull (w : World) (parentNode : Ref) : Ref :=
  match parentNode with
  | .obj p => w.rawNode p
  | _ => .null

namespace Selection

/-- `this.emit(name, ...payload)`. -/
def emit (s : Selection) (name : String) (payload : List Val) : Selection :=
  { s with emitted := s.emitted ++ [⟨name, payload, s._node, s._nodeFront, s._walker⟩] }

/-- `setWalker(walker)`. -/
def setWalker (s : Selection) (walker : Ref) : Selection :=
  let s1 : Selection :=
    match s._walker with
    | .obj wk => { s with listening := walkerOff s.listening wk }
    | _ => s
  let s2 : Selection := { s1 with _walker := walker }
  match s2._walker with
  | .obj wk => { s2 with listening := walkerOn s2.listening wk }
  | _ => s2

/-- `setNodeFront(value, reason="unknown")`. -/
def setNodeFront (w : World) (s : Selection) (value : Ref) (reason : Option String) : Selection :=
  let reason := reason.getD "unknown"
  let s : Selection := { s with reason := some reason }
  if value ≠ s._nodeFront then
    let rawValue := rawOf w value
    let s := s.emit "before-new-node" [.ref rawValue, .str reason]
    let s := s.emit "before-new-node-front" [.ref value, .str reason]
    let previousNode := s._node
    let previousFront := s._nodeFront
    let s : Selection := { s with _node := rawValue }
    let s : Selection := { s with _nodeFront := value }
    let s := s.emit "new-node" [.ref previousNode, reasonVal s.reason]
    let s := s.emit "new-node-front" [.ref value, reasonVal s.reason]
    s
  else
    s

/-- `setNode(value, reason="unknown")`. -/
def setNode (w : World) (s : Selection) (value : Ref) (reason : Option String) :
    Except Fault Selection := do
  let reason := reason.getD "unknown"
  let value ←
    if value.truthy then
      match s._walker with
      | .obj wk => pure (w.frontForRawNode wk value)
      | _ => throw (Fault.exn .typeError)
    else
      pure value
  pure (s.setNodeFront w value (some reason))

/-- `destroy()`. -/
def destroy (w : World) (s : Selection) : Except Fault Selection := do
  let s ← s.setNode w .null none
  pure (s.setWalker .null)

/-- `isNode()`. -/
def isNode (w : World) (s : Selection) : Bool :=
  if !s._nodeFront.truthy then
    false
  else if (match s._node with
      | .obj n => w.isDeadWrapper n
      | _ => false) then
    false
  else
    true

/-- The `document` getter. -/
def document (w : World) (s : Selection) : Except Exn Ref :=
  if s.isNode w then
    onObject s._node w.ownerDocument
  else
    pure .null

/-- The `window` getter. -/
def window (w : World) (s : Selection) : Except Exn Ref :=
  if s.isNode w then do
    let doc ← onObject s._node w.ownerDocument
    onObject doc w.defaultView
  else
    pure .null

/-- The loop `while (node) { if (node === this._walker.rootNode) return true;
node = node.parentNode(); } return false;` of `isConnected`, with a budget of
iterations. -/
def parentWalk (w : World) (walker : Ref) : Nat → Ref → Except Fault Bool
  | _, .undefined => pure false
  | _, .null => pure false
  | 0, .obj _ => throw Fault.fuel
  | fuel + 1, .obj n =>
    match walker with
    | .obj wk =>
      if Ref.obj n = w.rootNode wk then
        pure true
      else
        parentWalk w walker fuel (w.parentNode n)
    | _ => throw (Fault.exn .typeError)

/-- The body of the `try` block of `isConnected`:
`let doc = this.document; return (doc && doc.defaultView &&
doc.documentElement.contains(rawNode));`. -/
def containmentTest (w : World) (s : Selection) (rawNode : Ref) : Except Exn Val := do
  let doc ← s.document w
  match doc with
  | .obj d =>
    let view ← w.defaultView d
    if view.truthy then
      let root ← w.documentElement d
      let inside ← onObject root (fun e => w.contains e rawNode)
      pure (.bool inside)
    else
      pure (.ref view)
  | _ => pure (.ref doc)

/-- `isConnected()`. -/
def isConnected (w : World) (fuel : Nat) (s : Selection) : Except Fault Val :=
  let node := s._nodeFront
  match node with
  | .obj f =>
    if !(w.actorID f).truthy then
      pure (.bool false)
    else
      let rawNode := w.rawNode f
      if rawNode.truthy then
        match containmentTest w s rawNode with
        | .ok v => pure v
        | .error _ => pure (.bool false)
      else
        (parentWalk w s._walker fuel node).map Val.bool
  | _ => pure (.bool false)

/-- `isRoot()`: `this.isNode() && this.isConnected() &&
this._nodeFront.isDocumentElement`. -/
def isRoot (w : World) (fuel : Nat) (s : Selection) : Except Fault Val := do
  if s.isNode w then
    let connected ← s.isConnected w fuel
    if connected.truthy then
      match s._nodeFront with
      | .obj f => pure (w.isDocumentElement f)
      | _ => throw (Fault.exn .typeError)
    else
      pure connected
  else
    pure (.bool false)

/-- `isLocal()`. -/
def isLocal (s : Selection) : Bool :=
  s._node.truthy

/-- `isHTMLNode()`. -/
def isHTMLNode (w : World) (s : Selection) : Except Exn Bool :=
  let xhtml_ns := "http://www.w3.org/1999/xhtml"
  if s.isNode w then do
    let ns ← onObject s._node (fun n => pure (w.namespaceURI n))
    pure (decide (ns = Val.str xhtml_ns))
  else
    pure false

/-- The expression `this.isNode() && this.nodeFront.nodeType == c` shared by
the node-type predicates. -/
def nodeTypeIs (w : World) (s : Selection) (c : Nat) : Except Exn Bool :=
  if s.isNode w then
    onObject s._nodeFront (fun f => pure (decide (w.nodeType f = c)))
  else
    pure false

/-- `isElementNode()`. -/
def isElementNode (w : World) (s : Selection) : Except Exn Bool :=
  nodeTypeIs w s w.nsIDOMNode.ELEMENT_NODE

/-- `isAttributeNode()`. -/
def isAttributeNode (w : World) (s : Selection) : Except Exn Bool :=
  nodeTypeIs w s w.nsIDOMNode.ATTRIBUTE_NODE

/-- `isTextNode()`. -/
def isTextNode (w : World) (s : Selection) : Except Exn Bool :=
  nodeTypeIs w s w.nsIDOMNode.TEXT_NODE

/-- `isCDATANode()`. -/
def isCDATANode (w : World) (s : Selection) : Except Exn Bool :=
  nodeTypeIs w s w.nsIDOMNode.CDATA_SECTION_NODE

/-- `isEntityRefNode()`. -/
def isEntityRefNode (w : World) (s : Selection) : Except Exn Bool :=
  nodeTypeIs w s w.nsIDOMNode.ENTITY_REFERENCE_NODE

/-- `isEntityNode()`. -/
def isEntityNode (w : World) (s : Selection) : Except Exn Bool :=
  nodeTypeIs w s w.nsIDOMNode.ENTITY_NODE

/-- `isProcessingInstructionNode()`. -/
def isProcessingInstructionNode (w : World) (s : Selection) : Except Exn Bool :=
  nodeTypeIs w s w.nsIDOMNode.PROCESSING_INSTRUCTION_NODE

/-- `isCommentNode()`. -/
def isCommentNode (w : World) (s : Selection) : Except Exn Bool :=
  nodeTypeIs w s w.nsIDOMNode.PROCESSING_INSTRUCTION_NODE

/-- `isDocumentNode()`. -/
def isDocumentNode (w : World) (s : Selection) : Except Exn Bool :=
  nodeTypeIs w s w.nsIDOMNode.DOCUMENT_NODE

/-- `isDocumentTypeNode()`. -/
def isDocumentTypeNode (w : World) (s : Selection) : Except Exn Bool :=
  nodeTypeIs w s w.nsIDOMNode.DOCUMENT_TYPE_NODE

/-- `isDocumentFragmentNode()`. -/
def isDocumentFragmentNode (w : World) (s : Selection) : Except Exn Bool :=
  nodeTypeIs w s w.nsIDOMNode.DOCUMENT_FRAGMENT_NODE

/-- `isNotationNode()`. -/
def isNotationNode (w : World) (s : Selection) : Except Exn Bool :=
  nodeTypeIs w s w.nsIDOMNode.NOTATION_NODE

/-- The `for (let m of mutations)` loop of `_onMutations`, on the three local
variables `attributeChange`, `detached` and `parentNode`. -/
def scanMutations (w : World) (fuel : Nat) (s : Selection) :
    List MutationRecord → Bool × Bool × Ref → Except Fault (Bool × Bool × Ref)
  | [], acc => pure acc
  | m :: rest, (attributeChange, detached, parentNode) => do
    let attributeChange :=
      if !attributeChange && m.type == "attributes" then true else attributeChange
    let (detached, parentNode) ←
      if m.type == "childList" then
        if !detached then do
          let connected ← s.isConnected w fuel
          if !connected.truthy then
            pure (true, m.target)
          else
            pure (detached, parentNode)
        else
          pure (detached, parentNode)
      else
        pure (detached, parentNode)
    scanMutations w fuel s rest (attributeChange, detached, parentNode)

/-- `_onMutations(mutations)`. -/
def _onMutations (w : World) (fuel : Nat) (s : Selection) (mutations : List MutationRecord) :
    Except Fault Selection := do
  let (attributeChange, detached, parentNode) ←
    scanMutations w fuel s mutations (false, false, .null)
  let s := if attributeChange then s.emit "attribute-changed" [] else s
  if detached then
    let s := s.emit "detached" [.ref (rawOrNull w parentNode)]
    pure (s.emit "detached-front" [.ref parentNode])
  else
    pure s

/-- The object before the constructor body runs: the prototype's defaults
`_walker: null` and `_node: null`, no `_nodeFront` and no `reason` property,
nothing emitted, and a freshly bound handler registered nowhere. -/
def proto (track : Track) : Selection :=
  { track := track, _walker := .null, _node := .null, _nodeFront := .undefined,
    reason := none, emitted := [], listening := [] }

/-- The constructor
`Selection(walker, node=null, track={attributes:true,detached:true})`. -/
def construct (w : World) (walker : Ref) (node : Ref) (track : Option Track) :
    Except Fault Selection :=
  let node := if node = .undefined then Ref.null else node
  let track := track.getD { attributes := true, detached := true }
  let s := proto track
  let s := s.setWalker walker
  s.setNode w node none

end Selection

/-- The states a tracker can be in: what the constructor returns, and what
any public operation or any delivered mutation batch makes of such a state,
the world being free to differ from one call to the next. -/
inductive Reachable : Selection → Prop where
  | construct (w : World) (walker node : Ref) (track : Option Track) (s : Selection) :
      Selection.construct w walker node track = .ok s → Reachable s
  | setNode (w : World) (s : Selection) (value : Ref) (reason : Option String)
      (s' : Selection) :
      Reachable s → s.setNode w value reason = .ok s' → Reachable s'
  | setNodeFront (w : World) (s : Selection) (value : Ref) (reason : Option String) :
      Reachable s → Reachable (s.setNodeFront w value reason)
  | setWalker (s : Selection) (walker : Ref) :
      Reachable s → Reachable (s.setWalker walker)
  | destroy (w : World) (s s' : Selection) :
      Reachable s → s.destroy w = .ok s' → Reachable s'
  | onMutations (w : World) (fuel : Nat) (s : Selection) (ms : List MutationRecord)
      (s' : Selection) :
      Reachable s → s._onMutations w fuel ms = .ok s' → Reachable s'

/-- The values the DOM gives the node-type constants, `ELEMENT_NODE = 1` up to
`NOTATION_NODE = 12`, used for concrete evaluation. -/
def domConstants : NodeTypeConstants :=
  { ELEMENT_NODE := 1, ATTRIBUTE_NODE := 2, TEXT_NODE := 3, CDATA_SECTION_NODE := 4,
    ENTITY_REFERENCE_NODE := 5, ENTITY_NODE := 6, PROCESSING_INSTRUCTION_NODE := 7,
    COMMENT_NODE := 8, DOCUMENT_NODE := 9, DOCUMENT_TYPE_NODE := 10,
    DOCUMENT_FRAGMENT_NODE := 11, NOTATION_NODE := 12 }

/-- A small world for concrete evaluation: walker 100 has root front 10; front
11 (raw node 1) is a child of 10 and front 12 (raw node 2) a child of 11;
every raw node belongs to document 50 with view 60, whose root element 1
contains only itself. Front 11 is the document element; front 12 is a comment
node, front 13 a processing instruction, every other front an element. Front
15 is a child of the root that has no raw node. -/
def demoWorld : World :=
  { rawNode := fun f => if f = 11 then .obj 1 else if f = 12 then .obj 2 else .null
    actorID := fun _ => .str "actor"
    parentNode := fun f =>
      if f = 11 then .obj 10 else if f = 12 then .obj 11 else if f = 15 then .obj 10 else .null
    isDocumentElement := fun f => .bool (decide (f = 11))
    nodeType := fun f => if f = 12 then 8 else if f = 13 then 7 else 1
    namespaceURI := fun _ => .str "http://www.w3.org/1999/xhtml"
    nsIDOMNode := domConstants
    frontForRawNode := fun _ r =>
      match r with
      | .obj 1 => .obj 11
      | .obj 2 => .obj 12
      | _ => .null
    rootNode := fun _ => .obj 10
    isDeadWrapper := fun _ => false
    ownerDocument := fun _ => .ok (.obj 50)
    defaultView := fun _ => .ok (.obj 60)
    documentElement := fun _ => .ok (.obj 1)
    contains := fun _ r => .ok (decide (r = .obj 1)) }

/-- A tracker with walker 100 attached and nothing selected, as the
constructor leaves it but with an empty log. -/
def idle : Selection :=
  { track := { attributes := true, detached := true }, _walker := .obj 100, _node := .null,
    _nodeFront := .null, reason := some "unknown", emitted := [], listening := [100] }

/-- A tracker with walker 100 attached and front 11 (raw node 1) selected. -/
def holding : Selection :=
  { track := { attributes := true, detached := true }, _walker := .obj 100, _node := .obj 1,
    _nodeFront := .obj 11, reason := some "unknown", emitted := [], listening := [100] }

/-- A tracker with walker 100 attached and front 12 (raw node 2) selected; in
`demoWorld` the document's root element does not contain raw node 2. -/
def stray : Selection :=
  { track := { attributes := true, detached := true }, _walker := .obj 100, _node := .obj 2,
    _nodeFront := .obj 12, reason := some "unknown", emitted := [], listening := [100] }

/-- The events a call appended to the log: what `after` has emitted beyond
the events already in `before`. -/
def emittedSince (before after : Selection) : List Emission :=
  after.emitted.drop before.emitted.length

/-- The events of a list that carry the given name. -/
def named (name : String) (evs : List Emission) : List Emission :=
  evs.filter (fun e => e.name == name)

/-- Whether a batch holds a record of the given type. -/
def hasType (t : String) (ms : List MutationRecord) : Bool :=
  ms.any (fun m => m.type == t)

/-- The first record of a batch, in batch order, of type "childList". -/
def firstChildList (ms : List MutationRecord) : Option MutationRecord :=
  ms.find? (fun m => m.type == "childList")

/-- The events `_onMutations` emits on a tracker in state `s` once its loop has
left the local variables `attributeChange`, `detached` and `parentNode` at
`a`, `d` and `p`. -/
def handlerEvents (w : World) (s : Selection) (a d : Bool) (p : Ref) : List Emission :=
  (if a then [⟨"attribute-changed", [], s._node, s._nodeFront, s._walker⟩] else [])
  ++ (if d then
      [⟨"detached", [.ref (rawOrNull w p)], s._node, s._nodeFront, s._walker⟩,
       ⟨"detached-front", [.ref p], s._node, s._nodeFront, s._walker⟩]
    else [])

/-- One call on a tracker from outside: a public operation, or a mutation
batch delivered to the handler; each call carries the world it runs in. -/
inductive Call where
  | setNode (w : World) (value : Ref) (reason : Option String)
  | setNodeFront (w : World) (value : Ref) (reason : Option String)
  | setWalker (walker : Ref)
  | destroy (w : World)
  | mutations (w : World) (fuel : Nat) (ms : List MutationRecord)

/-- The effect of a call on a tracker. -/
def Call.run : Call → Selection → Except Fault Selection
  | .setNode w value reason, s => s.setNode w value reason
  | .setNodeFront w value reason, s => pure (s.setNodeFront w value reason)
  | .setWalker walker, s => pure (s.setWalker walker)
  | .destroy w, s => s.destroy w
  | .mutations w fuel ms, s => s._onMutations w fuel ms

/-- A sequence of calls, each of which returns, run one after the other. -/
def runCalls : List Call → Selection → Except Fault Selection
  | [], s => pure s
  | c :: cs, s => do
    let s' ← c.run s
    runCalls cs s'

/-- The proxy handle a call sets, if it sets one, and the world in which the
handle's `rawNode()` is read: the argument of `setNodeFront`, the front the
walker gives for the argument of `setNode`, `null` for `destroy`. -/
def Call.handle : Call → Selection → Option (World × Ref)
  | .setNode w value _, s =>
    if value.truthy then
      match s._walker with
      | .obj wk => some (w, w.frontForRawNode wk value)
      | _ => none
    else
      some (w, value)
  | .setNodeFront w value _, _ => some (w, value)
  | .setWalker _, _ => none
  | .destroy w, _ => some (w, .null)
  | .mutations _ _ _, _ => none

/-- What `rawNode()` returned when the held proxy handle was set (the handle
itself when it is `null`): over a sequence of calls, the value read at the
last call that set a handle other than the one held at that moment, and
`held` when no call did. -/
def rawWhenSet : List Call → Selection → Ref → Ref
  | [], _, held => held
  | c :: cs, s, held =>
    match c.run s with
    | .ok s' =>
      rawWhenSet cs s'
        (match c.handle s with
        | some (w, v) => if v ≠ s._nodeFront then rawOf w v else held
        | none => held)
    | .error _ => held

/-- The handle reached from `r` by following `parentNode()` `k` times; the
chain stops at the first `null` or `undefined`. -/
def nthParent (w : World) : Nat → Ref → Ref
  | 0, r => r
  | k + 1, .obj n => nthParent w k (w.parentNode n)
  | _ + 1, r => r

/-- Whether a call returns a truthy value. -/
def holds (r : Except Fault Val) : Bool :=
  match r with
  | .ok v => v.truthy
  | .error _ => false

/-- A world in which every access to the native side raises the dead-object
error; fronts, walker and platform are those of `demoWorld`. -/
def deadWorld : World :=
  { demoWorld with
    ownerDocument := fun _ => .error .deadObject
    defaultView := fun _ => .error .deadObject
    documentElement := fun _ => .error .deadObject
    contains := fun _ _ => .error .deadObject }

/-- A tracker with walker 100 attached holding front 15, which has no raw node
in `demoWorld` and whose parent is the root front 10. -/
def remote : Selection :=
  { track := { attributes := true, detached := true }, _walker := .obj 100, _node := .null,
    _nodeFront := .obj 15, reason := some "unknown", emitted := [], listening := [100] }

/-- A tracker with walker 100 attached holding front 13, a processing
instruction without a raw node in `demoWorld`. -/
def instruction : Selection :=
  { track := { attributes := true, detached := true }, _walker := .obj 100, _node := .null,
    _nodeFront := .obj 13, reason := some "unknown", emitted := [], listening := [100] }

/-- The lock-step of the fields that every operation keeps: a `null` proxy
handle goes with a `null` native handle, and the handler is registered once
on the attached walker and nowhere else. -/
def Coherent (s : Selection) : Prop :=
  (s._nodeFront = .null → s._node = .null)
  ∧ s.listening = (match s._walker with
    | .obj wk => [wk]
    | _ => [])

/-! ## Shared lemmas on `setNodeFront` -/

theorem emittedSince_append (s s' : Selection) (evs : List Emission)
    (h : s'.emitted = s.emitted ++ evs) : emittedSince s s' = evs := by
  simp [emittedSince, h]

theorem setNodeFront_same (w : World) (s : Selection) (reason : Option String) :
    s.setNodeFront w s._nodeFront reason = { s with reason := some (reason.getD "unknown") } := by
  simp [Selection.setNodeFront]

theorem setNodeFront_changed (w : World) (s : Selection) (v : Ref) (reason : Option String)
    (h : v ≠ s._nodeFront) :
    s.setNodeFront w v reason =
      { s with
        reason := some (reason.getD "unknown")
        _node := rawOf w v
        _nodeFront := v
        emitted := s.emitted ++
          [⟨"before-new-node", [.ref (rawOf w v), .str (reason.getD "unknown")],
              s._node, s._nodeFront, s._walker⟩,
           ⟨"before-new-node-front", [.ref v, .str (reason.getD "unknown")],
              s._node, s._nodeFront, s._walker⟩,
           ⟨"new-node", [.ref s._node, .str (reason.getD "unknown")], rawOf w v, v, s._walker⟩,
           ⟨"new-node-front", [.ref v, .str (reason.getD "unknown")], rawOf w v, v, s._walker⟩] } := by
  simp only [Selection.setNodeFront, Selection.emit, reasonVal, ne_eq, h, not_false_eq_true,
    if_true, List.append_assoc, List.cons_append, List.nil_append]

theorem setNodeFront_nodeFront (w : World) (s : Selection) (v : Ref) (reason : Option String) :
    (s.setNodeFront w v reason)._nodeFront = v := by
  by_cases h : v = s._nodeFront
  · subst h; rw [setNodeFront_same]
  · rw [setNodeFront_changed w s v reason h]

theorem setNodeFront_emitted_changed (w : World) (s : Selection) (v : Ref)
    (reason : Option String) (h : v ≠ s._nodeFront) :
    (s.setNodeFront w v reason).emitted = s.emitted ++
      [⟨"before-new-node", [.ref (rawOf w v), .str (reason.getD "unknown")],
          s._node, s._nodeFront, s._walker⟩,
       ⟨"before-new-node-front", [.ref v, .str (reason.getD "unknown")],
          s._node, s._nodeFront, s._walker⟩,
       ⟨"new-node", [.ref s._node, .str (reason.getD "unknown")], rawOf w v, v, s._walker⟩,
       ⟨"new-node-front", [.ref v, .str (reason.getD "unknown")], rawOf w v, v, s._walker⟩] := by
  rw [setNodeFront_changed w s v reason h]

theorem construct_null_ok (w : World) (walker : Ref) (track : Option Track) :
    Selection.construct w walker .null track =
      .ok (((Selection.proto (track.getD ⟨true, true⟩)).setWalker walker).setNodeFront w
        .null (some "unknown")) := by
  rfl

/-! ## Setting the selection -/

/-- C1: `setNodeFront(v, reason)` with `v` identical to the held proxy handle
emits nothing and leaves `node` and `nodeFront` as they were; so a second
`setNodeFront(v)` right after a first one emits nothing, and neither does
`setNodeFront(null)` on a tracker just constructed without a node, whose
proxy handle is already `null`. -/
theorem setNodeFront_same_handle_silent (w w2 : World) (s : Selection) (v : Ref)
    (reason reason2 : Option String) (walker : Ref) (track : Option Track) :
    ((s.setNodeFront w s._nodeFront reason).emitted = s.emitted
      ∧ (s.setNodeFront w s._nodeFront reason)._node = s._node
      ∧ (s.setNodeFront w s._nodeFront reason)._nodeFront = s._nodeFront)
    ∧ ((s.setNodeFront w v reason).setNodeFront w2 v reason2).emitted
        = (s.setNodeFront w v reason).emitted
    ∧ ∃ s0, Selection.construct w walker .null track = .ok s0 ∧ s0._nodeFront = .null
        ∧ (s0.setNodeFront w2 .null reason).emitted = s0.emitted := by
  refine ⟨?_, ?_, ?_⟩
  · rw [setNodeFront_same]
    exact ⟨rfl, rfl, rfl⟩
  · have hv : v = (s.setNodeFront w v reason)._nodeFront :=
      (setNodeFront_nodeFront w s v reason).symm
    have key := setNodeFront_same w2 (s.setNodeFront w v reason) reason2
    rw [← hv] at key
    rw [key]
  · refine ⟨_, construct_null_ok w walker track, setNodeFront_nodeFront _ _ _ _, ?_⟩
    have hv : Ref.null = (((Selection.proto (track.getD ⟨true, true⟩)).setWalker
        walker).setNodeFront w .null (some "unknown"))._nodeFront :=
      (setNodeFront_nodeFront _ _ _ _).symm
    have key := setNodeFront_same w2 (((Selection.proto (track.getD ⟨true, true⟩)).setWalker
        walker).setNodeFront w .null (some "unknown")) reason
    rw [← hv] at key
    rw [key]

/-- C2: `setNodeFront(v, reason)` with `v` not identical to the held proxy
handle emits exactly four events, `before-new-node`, `before-new-node-front`,
`new-node`, `new-node-front` in this order; `node` and `nodeFront` still hold
the previous values during the first two and already hold the new values
(`v.rawNode()`, or `null` for `v = null`, and `v`) during the last two. -/
theorem setNodeFront_change_four_events (w : World) (s : Selection) (v : Ref)
    (reason : Option String) (h : v ≠ s._nodeFront) :
    (∃ evs, (s.setNodeFront w v reason).emitted = s.emitted ++ evs
      ∧ evs.map (fun e => (e.name, e.node, e.nodeFront)) =
        [("before-new-node", s._node, s._nodeFront),
         ("before-new-node-front", s._node, s._nodeFront),
         ("new-node", rawOf w v, v),
         ("new-node-front", rawOf w v, v)])
    ∧ (s.setNodeFront w v reason)._node = rawOf w v
    ∧ (s.setNodeFront w v reason)._nodeFront = v
    ∧ rawOf w .null = .null
    ∧ ∀ f, rawOf w (.obj f) = w.rawNode f := by
  refine ⟨⟨_, setNodeFront_emitted_changed w s v reason h, rfl⟩, ?_, ?_, rfl, fun _ => rfl⟩
  · rw [setNodeFront_changed w s v reason h]
  · rw [setNodeFront_changed w s v reason h]

theorem setNodeFront_change_four_events_witness :
    Ref.obj 12 ≠ holding._nodeFront
    ∧ ((∃ evs, (holding.setNodeFront demoWorld (.obj 12) (some "pick")).emitted
          = holding.emitted ++ evs
        ∧ evs.map (fun e => (e.name, e.node, e.nodeFront)) =
          [("before-new-node", holding._node, holding._nodeFront),
           ("before-new-node-front", holding._node, holding._nodeFront),
           ("new-node", rawOf demoWorld (.obj 12), .obj 12),
           ("new-node-front", rawOf demoWorld (.obj 12), .obj 12)])
      ∧ (holding.setNodeFront demoWorld (.obj 12) (some "pick"))._node
          = rawOf demoWorld (.obj 12)
      ∧ (holding.setNodeFront demoWorld (.obj 12) (some "pick"))._nodeFront = .obj 12
      ∧ rawOf demoWorld .null = .null
      ∧ ∀ f, rawOf demoWorld (.obj f) = demoWorld.rawNode f) :=
  ⟨by decide, setNodeFront_change_four_events demoWorld holding (.obj 12) (some "pick")
    (by decide)⟩

/-- C3: when `setNodeFront(v, reason)` changes the selection (also for
`v = null`), the one `new-node` event it emits carries the native handle held
before the call, followed by the reason. -/
theorem setNodeFront_new_node_payload (w : World) (s : Selection) (v : Ref)
    (reason : Option String) (h : v ≠ s._nodeFront) :
    ∃ evs, (s.setNodeFront w v reason).emitted = s.emitted ++ evs
      ∧ (named "new-node" evs).map (fun e => e.payload)
          = [[.ref s._node, .str (reason.getD "unknown")]] := by
  refine ⟨_, setNodeFront_emitted_changed w s v reason h, ?_⟩
  simp [named]

theorem setNodeFront_new_node_payload_witness :
    Ref.null ≠ holding._nodeFront
    ∧ ∃ evs, (holding.setNodeFront demoWorld .null (some "gone")).emitted
          = holding.emitted ++ evs
        ∧ (named "new-node" evs).map (fun e => e.payload)
            = [[.ref holding._node, .str ((some "gone").getD "unknown")]] :=
  ⟨by decide, setNodeFront_new_node_payload demoWorld holding .null (some "gone") (by decide)⟩

/-- C4, as the code behaves: with front 11 selected, `setNodeFront(front 12,
"pick")` emits a `new-node-front` event whose payload is the incoming front 12,
not the front 11 that was selected before the call. -/
theorem setNodeFront_new_node_front_carries_incoming :
    holding._nodeFront = .obj 11
    ∧ (named "new-node-front"
        (emittedSince holding (holding.setNodeFront demoWorld (.obj 12) (some "pick")))).map
          (fun e => e.payload) = [[.ref (.obj 12), .str "pick"]] := by
  decide

/-- C5, as stated, fails: with walker 100 attached, nothing selected and
`frontForRawNode(node 1)` a front whose `rawNode()` is node 1,
`setNode(node 1, "test")` emits `before-new-node` with payload
`(node 1, "test")`, not `(null, "test")`. -/
theorem setNode_before_new_node_payload_not_null :
    (idle._walker = .obj 100 ∧ idle._nodeFront = .null ∧ idle._node = .null
      ∧ demoWorld.frontForRawNode 100 (.obj 1) = .obj 11 ∧ demoWorld.rawNode 11 = .obj 1)
    ∧ (idle.setNode demoWorld (.obj 1) (some "test")).map
        (fun s' => (named "before-new-node" (emittedSince idle s')).map (fun e => e.payload))
        = .ok [[.ref (.obj 1), .str "test"]]
    ∧ (idle.setNode demoWorld (.obj 1) (some "test")).map
        (fun s' => (named "before-new-node" (emittedSince idle s')).map (fun e => e.payload))
        ≠ .ok [[.ref .null, .str "test"]] := by
  decide

/-- C5, amended: with walker `W` attached, nothing selected and
`W.frontForRawNode(A)` a proxy whose `rawNode()` is `A`, `setNode(A, "test")`
returns, emits `before-new-node` with payload `(A, "test")` and then
`new-node` with payload `(null, "test")`, and leaves `node` equal to `A`. -/
theorem setNode_first_selection (w : World) (s : Selection) (W a f : Nat)
    (hw : s._walker = .obj W) (hfront : s._nodeFront = .null) (hnode : s._node = .null)
    (hf : w.frontForRawNode W (.obj a) = .obj f) (hr : w.rawNode f = .obj a) :
    ∃ s', s.setNode w (.obj a) (some "test") = .ok s'
      ∧ (∃ evs, s'.emitted = s.emitted ++ evs
        ∧ (evs.filter (fun e => e.name == "before-new-node" || e.name == "new-node")).map
            (fun e => (e.name, e.payload))
          = [("before-new-node", [.ref (.obj a), .str "test"]),
             ("new-node", [.ref .null, .str "test"])])
      ∧ s'._node = .obj a := by
  have hne : Ref.obj f ≠ s._nodeFront := by rw [hfront]; exact fun h => Ref.noConfusion h
  have hraw : rawOf w (.obj f) = .obj a := hr
  refine ⟨s.setNodeFront w (.obj f) (some "test"), ?_, ⟨_, setNodeFront_emitted_changed w s _ _ hne, ?_⟩, ?_⟩
  · simp [Selection.setNode, Ref.truthy, hw, hf]
    rfl
  · simp [hraw, hnode]
  · rw [setNodeFront_changed w s _ _ hne]
    exact hraw

theorem setNode_first_selection_witness :
    idle._walker = .obj 100 ∧ idle._nodeFront = .null ∧ idle._node = .null
    ∧ demoWorld.frontForRawNode 100 (.obj 1) = .obj 11 ∧ demoWorld.rawNode 11 = .obj 1
    ∧ ∃ s', idle.setNode demoWorld (.obj 1) (some "test") = .ok s'
      ∧ (∃ evs, s'.emitted = idle.emitted ++ evs
        ∧ (evs.filter (fun e => e.name == "before-new-node" || e.name == "new-node")).map
            (fun e => (e.name, e.payload))
          = [("before-new-node", [.ref (.obj 1), .str "test"]),
             ("new-node", [.ref .null, .str "test"])])
      ∧ s'._node = .obj 1 :=
  ⟨rfl, rfl, rfl, rfl, rfl,
    setNode_first_selection demoWorld idle 100 1 11 rfl rfl rfl rfl rfl⟩

/-! ## Shared lemmas on the mutation handler -/

theorem isConnected_no_selection (w : World) (fuel : Nat) (s : Selection)
    (h : s._nodeFront = .null) : s.isConnected w fuel = .ok (.bool false) := by
  simp [Selection.isConnected, h]
  rfl

theorem scanMutations_disconnected (w : World) (fuel : Nat) (s : Selection) (c : Val)
    (hc : s.isConnected w fuel = .ok c) (hfalse : c.truthy = false) :
    ∀ (ms : List MutationRecord) (a d : Bool) (p : Ref),
      Selection.scanMutations w fuel s ms (a, d, p) =
        .ok (a || hasType "attributes" ms, d || hasType "childList" ms,
          if d then p else ((firstChildList ms).map (fun m => m.target)).getD p) := by
  intro ms
  induction ms with
  | nil => intro a d p; cases d <;> simp [Selection.scanMutations, hasType, firstChildList] <;> rfl
  | cons m rest ih =>
    intro a d p
    cases h1 : (m.type == "attributes") <;> cases h2 : (m.type == "childList") <;>
      cases a <;> cases d <;>
      simp [Selection.scanMutations, hasType, firstChildList, h1, h2, hc, hfalse, ih,
        List.find?_cons, bind, Except.bind, pure, Except.pure]

theorem scanMutations_no_childList (w : World) (fuel : Nat) (s : Selection) :
    ∀ (ms : List MutationRecord) (a d : Bool) (p : Ref),
      hasType "childList" ms = false →
      Selection.scanMutations w fuel s ms (a, d, p) =
        .ok (a || hasType "attributes" ms, d, p) := by
  intro ms
  induction ms with
  | nil => intro a d p _; simp [Selection.scanMutations, hasType]; rfl
  | cons m rest ih =>
    intro a d p h
    have h2 : ¬ m.type = "childList" := by
      intro h2; simp [hasType, h2] at h
    have h3 : hasType "childList" rest = false := by
      simp [hasType] at h ⊢; intro x hx; exact h.2 x hx
    by_cases h1 : m.type = "attributes" <;> cases a <;>
      simp [Selection.scanMutations, hasType, h1, h2, ih _ _ _ h3,
        bind, Except.bind, pure, Except.pure]

theorem onMutations_of_scan (w : World) (fuel : Nat) (s : Selection)
    (ms : List MutationRecord) (a d : Bool) (p : Ref)
    (h : Selection.scanMutations w fuel s ms (false, false, .null) = .ok (a, d, p)) :
    s._onMutations w fuel ms
      = .ok { s with emitted := s.emitted ++ handlerEvents w s a d p } := by
  cases a <;> cases d <;>
    simp [Selection._onMutations, h, handlerEvents, Selection.emit, bind, Except.bind,
      pure, Except.pure]

theorem onMutations_fields (w : World) (fuel : Nat) (s s' : Selection)
    (ms : List MutationRecord) (h : s._onMutations w fuel ms = .ok s') :
    ∃ evs, s' = { s with emitted := s.emitted ++ evs } := by
  cases hs : Selection.scanMutations w fuel s ms (false, false, .null) with
  | error e =>
    simp [Selection._onMutations, hs, bind, Except.bind] at h
  | ok r =>
    obtain ⟨a, d, p⟩ := r
    rw [onMutations_of_scan w fuel s ms a d p hs] at h
    exact ⟨_, (Except.ok.inj h).symm⟩

theorem hasType_of_firstChildList (ms : List MutationRecord) (m : MutationRecord)
    (h : firstChildList ms = some m) : hasType "childList" ms = true := by
  have hm := List.find?_some h
  have hmem := List.mem_of_find?_eq_some h
  simp only [hasType, List.any_eq_true]
  exact ⟨m, hmem, hm⟩

/-! ## The mutation handler -/

/-- C6: a batch delivered while `isConnected()` returns a falsy value and
holding at least one "childList" record makes the handler emit exactly one
`detached` and exactly one `detached-front` event, however many such records
there are; `detached-front` carries the target of the first "childList"
record and `detached` that target's `rawNode()`, or `null` when the target is
`null`. -/
theorem onMutations_detached_once (w : World) (fuel : Nat) (s : Selection)
    (ms : List MutationRecord) (m : MutationRecord) (c : Val)
    (hc : s.isConnected w fuel = .ok c) (hfalse : c.truthy = false)
    (hm : firstChildList ms = some m) :
    ∃ s', s._onMutations w fuel ms = .ok s'
      ∧ ∃ evs, s'.emitted = s.emitted ++ evs
        ∧ (named "detached" evs).map (fun e => e.payload) = [[.ref (rawOrNull w m.target)]]
        ∧ (named "detached-front" evs).map (fun e => e.payload) = [[.ref m.target]]
        ∧ rawOrNull w .null = .null
        ∧ ∀ p, rawOrNull w (.obj p) = w.rawNode p := by
  have hscan := scanMutations_disconnected w fuel s c hc hfalse ms false false .null
  have hty := hasType_of_firstChildList ms m hm
  rw [hty, hm] at hscan
  refine ⟨_, onMutations_of_scan w fuel s ms _ _ _ hscan, _, rfl, ?_, ?_, rfl, fun _ => rfl⟩
  · cases hasType "attributes" ms <;> simp [handlerEvents, named]
  · cases hasType "attributes" ms <;> simp [handlerEvents, named]

theorem onMutations_detached_once_witness :
    stray.isConnected demoWorld 5 = .ok (.bool false)
    ∧ (Val.bool false).truthy = false
    ∧ firstChildList [⟨"attributes", .obj 12⟩, ⟨"childList", .obj 11⟩, ⟨"childList", .obj 10⟩]
        = some ⟨"childList", .obj 11⟩
    ∧ ∃ s', stray._onMutations demoWorld 5
          [⟨"attributes", .obj 12⟩, ⟨"childList", .obj 11⟩, ⟨"childList", .obj 10⟩] = .ok s'
      ∧ ∃ evs, s'.emitted = stray.emitted ++ evs
        ∧ (named "detached" evs).map (fun e => e.payload)
            = [[.ref (rawOrNull demoWorld (MutationRecord.mk "childList" (.obj 11)).target)]]
        ∧ (named "detached-front" evs).map (fun e => e.payload)
            = [[.ref (MutationRecord.mk "childList" (.obj 11)).target]]
        ∧ rawOrNull demoWorld .null = .null
        ∧ ∀ p, rawOrNull demoWorld (.obj p) = demoWorld.rawNode p :=
  ⟨by decide, rfl, by decide,
    onMutations_detached_once demoWorld 5 stray
      [⟨"attributes", .obj 12⟩, ⟨"childList", .obj 11⟩, ⟨"childList", .obj 10⟩]
      ⟨"childList", .obj 11⟩ (.bool false) (by decide) rfl (by decide)⟩

/-- C7: for a non-empty batch whose records are all of type "attributes" the
handler returns and emits exactly one event, `attribute-changed` with no
payload, whatever the number of records. -/
theorem onMutations_attributes_only (w : World) (fuel : Nat) (s : Selection)
    (ms : List MutationRecord) (hne : ms ≠ [])
    (hall : ∀ m ∈ ms, m.type = "attributes") :
    ∃ s', s._onMutations w fuel ms = .ok s'
      ∧ s'.emitted = s.emitted
          ++ [⟨"attribute-changed", [], s._node, s._nodeFront, s._walker⟩] := by
  have hno : hasType "childList" ms = false := by
    simp only [hasType, List.any_eq_false]
    intro m hm
    simp [hall m hm]
  have hyes : hasType "attributes" ms = true := by
    cases ms with
    | nil => exact absurd rfl hne
    | cons m rest => simp [hasType, hall m (List.mem_cons_self _ _)]
  have hscan := scanMutations_no_childList w fuel s ms false false .null hno
  rw [hyes] at hscan
  exact ⟨_, onMutations_of_scan w fuel s ms _ _ _ hscan, rfl⟩

theorem onMutations_attributes_only_witness :
    ([⟨"attributes", .obj 11⟩, ⟨"attributes", .obj 11⟩, ⟨"attributes", .obj 10⟩]
        : List MutationRecord) ≠ []
    ∧ (∀ m ∈ ([⟨"attributes", .obj 11⟩, ⟨"attributes", .obj 11⟩, ⟨"attributes", .obj 10⟩]
        : List MutationRecord), m.type = "attributes")
    ∧ ∃ s', holding._onMutations demoWorld 5
          [⟨"attributes", .obj 11⟩, ⟨"attributes", .obj 11⟩, ⟨"attributes", .obj 10⟩] = .ok s'
      ∧ s'.emitted = holding.emitted
          ++ [⟨"attribute-changed", [], holding._node, holding._nodeFront, holding._walker⟩] :=
  ⟨by decide, by decide,
    onMutations_attributes_only demoWorld 5 holding
      [⟨"attributes", .obj 11⟩, ⟨"attributes", .obj 11⟩, ⟨"attributes", .obj 10⟩]
      (by decide) (by decide)⟩

/-- C8, as the code behaves: a tracker constructed with
`track = {attributes: false, detached: false}` on raw node 2 still emits
`attribute-changed`, `detached` and `detached-front` for the batch
`[{type: "attributes"}, {type: "childList"}]`; the handler never reads
`track`. -/
theorem onMutations_ignores_track :
    (Selection.construct demoWorld (.obj 100) (.obj 2) (some ⟨false, false⟩)).bind
      (fun s => (s._onMutations demoWorld 5
          [⟨"attributes", .obj 12⟩, ⟨"childList", .obj 11⟩]).map
        (fun s' => (s.track, (emittedSince s s').map (fun e => e.name))))
      = .ok (⟨false, false⟩, ["attribute-changed", "detached", "detached-front"]) := by
  decide

/-! ## Teardown -/

theorem setNode_null (w : World) (s : Selection) (reason : Option String) :
    s.setNode w .null reason = .ok (s.setNodeFront w .null (some (reason.getD "unknown"))) := by
  rfl

theorem destroy_ok (w : World) (s : Selection) :
    s.destroy w = .ok ((s.setNodeFront w .null (some "unknown")).setWalker .null) := by
  rfl

theorem setWalker_fields (s : Selection) (walker : Ref) :
    (s.setWalker walker)._node = s._node ∧ (s.setWalker walker)._nodeFront = s._nodeFront
    ∧ (s.setWalker walker)._walker = walker ∧ (s.setWalker walker).emitted = s.emitted := by
  unfold Selection.setWalker
  cases s._walker <;> cases walker <;> exact ⟨rfl, rfl, rfl, rfl⟩

/-- C9, as stated, fails: a tracker constructed on raw node 1 and then
destroyed still emits `attribute-changed`, `detached` and `detached-front`
when the batch `[{type: "attributes"}, {type: "childList"}]` is handed to its
handler. -/
theorem onMutations_after_destroy_still_emits :
    (Selection.construct demoWorld (.obj 100) (.obj 1) none).bind
      (fun s => (s.destroy demoWorld).bind
        (fun s' => (s'._onMutations demoWorld 5
            [⟨"attributes", .obj 11⟩, ⟨"childList", .obj 10⟩]).map
          (fun s'' => (emittedSince s' s'').map (fun e => e.name))))
      = .ok ["attribute-changed", "detached", "detached-front"] := by
  decide

/-- C9, amended: `destroy()` returns, and a batch handed to the handler
afterwards does not raise; the handler emits `attribute-changed` once when the
batch holds an "attributes" record, `detached` and `detached-front` once when
it holds a "childList" record (the cleared selection is not connected), and
nothing else, so nothing at all for a batch with neither. -/
theorem onMutations_after_destroy (w w2 : World) (fuel : Nat) (s : Selection)
    (ms : List MutationRecord) :
    ∃ s', s.destroy w = .ok s'
      ∧ ∃ s'', s'._onMutations w2 fuel ms = .ok s''
        ∧ ∃ evs, s''.emitted = s'.emitted ++ evs
          ∧ evs.map (fun e => e.name)
            = (if hasType "attributes" ms then ["attribute-changed"] else [])
              ++ (if hasType "childList" ms then ["detached", "detached-front"] else []) := by
  refine ⟨_, destroy_ok w s, ?_⟩
  have hfront : ((s.setNodeFront w .null (some "unknown")).setWalker .null)._nodeFront
      = .null := by
    rw [(setWalker_fields _ _).2.1, setNodeFront_nodeFront]
  have hc := isConnected_no_selection w2 fuel _ hfront
  have hscan := scanMutations_disconnected w2 fuel _ (.bool false) hc rfl ms false false .null
  refine ⟨_, onMutations_of_scan w2 fuel _ ms _ _ _ hscan, _, rfl, ?_⟩
  cases hasType "attributes" ms <;> cases hasType "childList" ms <;> simp [handlerEvents]

/-! ## The lock-step invariant -/

theorem coherent_setWalker (s : Selection) (walker : Ref) (h : Coherent s) :
    Coherent (s.setWalker walker) := by
  obtain ⟨h1, h2⟩ := h
  refine ⟨?_, ?_⟩
  · rw [(setWalker_fields s walker).1, (setWalker_fields s walker).2.1]
    exact h1
  · unfold Selection.setWalker
    cases hw : s._walker <;> cases walker <;> simp [hw, walkerOn, walkerOff] at h2 ⊢ <;>
      simp [h2]

theorem coherent_setNodeFront (w : World) (s : Selection) (v : Ref) (reason : Option String)
    (h : Coherent s) : Coherent (s.setNodeFront w v reason) := by
  obtain ⟨h1, h2⟩ := h
  by_cases hv : v = s._nodeFront
  · subst hv
    rw [setNodeFront_same]
    exact ⟨h1, h2⟩
  · rw [setNodeFront_changed w s v reason hv]
    refine ⟨?_, h2⟩
    intro hnull
    have hv2 : v = .null := hnull
    show rawOf w v = .null
    rw [hv2]
    rfl

theorem coherent_setNode (w : World) (s s' : Selection) (v : Ref) (reason : Option String)
    (h : Coherent s) (hs : s.setNode w v reason = .ok s') : Coherent s' := by
  unfold Selection.setNode at hs
  cases hv : v.truthy
  · simp [hv, bind, Except.bind, pure, Except.pure] at hs
    rw [← hs]
    exact coherent_setNodeFront w s _ _ h
  · cases hw : s._walker <;> simp [hv, hw, bind, Except.bind, pure, Except.pure, throw,
      throwThe, MonadExceptOf.throw] at hs
    rw [← hs]
    exact coherent_setNodeFront w s _ _ h

theorem coherent_of_reachable (s : Selection) (h : Reachable s) : Coherent s := by
  induction h with
  | construct w walker node track s hs =>
    have h0 : Coherent (Selection.proto (track.getD ⟨true, true⟩)) :=
      ⟨fun h => Ref.noConfusion h, rfl⟩
    exact coherent_setNode w _ s _ none (coherent_setWalker _ walker h0) hs
  | setNode w s value reason s' _ hs ih => exact coherent_setNode w s s' value reason ih hs
  | setNodeFront w s value reason _ ih => exact coherent_setNodeFront w s value reason ih
  | setWalker s walker _ ih => exact coherent_setWalker s walker ih
  | destroy w s s' _ hs ih =>
    rw [destroy_ok] at hs
    rw [← Except.ok.inj hs]
    exact coherent_setWalker _ _ (coherent_setNodeFront w s _ _ ih)
  | onMutations w fuel s ms s' _ hs ih =>
    obtain ⟨evs, he⟩ := onMutations_fields w fuel s s' ms hs
    rw [he]
    exact ih

/-- C10: from every reachable state `destroy()` returns with `node` and
`nodeFront` both `null`, no walker attached and the handler registered on no
walker, the previously attached one included; every event `destroy()` emits
(the change events of clearing the selection) is emitted while the previous
walker is still attached, and the selection is already cleared when the last
of them is emitted. -/
theorem destroy_clears_then_detaches (w : World) (s : Selection) (h : Reachable s) :
    ∃ s', s.destroy w = .ok s'
      ∧ s'._node = .null ∧ s'._nodeFront = .null
      ∧ s'._walker = .null ∧ s'.listening = []
      ∧ s'.emitted = (s.setNodeFront w .null (some "unknown")).emitted
      ∧ ∃ evs, s'.emitted = s.emitted ++ evs
        ∧ (∀ e ∈ evs, e.walker = s._walker)
        ∧ (∀ e, evs.getLast? = some e → e.node = .null ∧ e.nodeFront = .null) := by
  have hco := coherent_of_reachable s h
  have hco1 := coherent_setNodeFront w s .null (some "unknown") hco
  have hco2 := coherent_setWalker _ .null hco1
  have hf := setWalker_fields (s.setNodeFront w .null (some "unknown")) .null
  have hfront : ((s.setNodeFront w .null (some "unknown")).setWalker .null)._nodeFront
      = .null := by
    rw [hf.2.1, setNodeFront_nodeFront]
  refine ⟨_, destroy_ok w s, hco2.1 hfront, hfront, hf.2.2.1, ?_, hf.2.2.2, ?_⟩
  · have h2 := hco2.2
    rw [hf.2.2.1] at h2
    exact h2
  · rw [hf.2.2.2]
    by_cases hv : Ref.null = s._nodeFront
    · refine ⟨[], ?_, ?_, ?_⟩
      · have key := setNodeFront_same w s (some "unknown")
        rw [← hv] at key
        rw [key]
        simp
      · intro e he
        cases he
      · intro e he
        simp at he
    · refine ⟨_, setNodeFront_emitted_changed w s .null (some "unknown") hv, ?_, ?_⟩
      · intro e he
        simp at he
        rcases he with he | he | he | he <;> rw [he]
      · intro e he
        simp at he
        rw [← he]
        exact ⟨rfl, rfl⟩

theorem destroy_clears_then_detaches_witness :
    Reachable (((Selection.proto ⟨true, true⟩).setWalker (.obj 100)).setNodeFront demoWorld
      (.obj 11) (some "unknown"))
    ∧ ∃ s', (((Selection.proto ⟨true, true⟩).setWalker (.obj 100)).setNodeFront demoWorld
          (.obj 11) (some "unknown")).destroy demoWorld = .ok s'
      ∧ s'._node = .null ∧ s'._nodeFront = .null
      ∧ s'._walker = .null ∧ s'.listening = []
      ∧ s'.emitted = ((((Selection.proto ⟨true, true⟩).setWalker (.obj 100)).setNodeFront
          demoWorld (.obj 11) (some "unknown")).setNodeFront demoWorld .null
            (some "unknown")).emitted
      ∧ ∃ evs, s'.emitted = (((Selection.proto ⟨true, true⟩).setWalker (.obj 100)).setNodeFront
            demoWorld (.obj 11) (some "unknown")).emitted ++ evs
        ∧ (∀ e ∈ evs, e.walker = (((Selection.proto ⟨true, true⟩).setWalker
            (.obj 100)).setNodeFront demoWorld (.obj 11) (some "unknown"))._walker)
        ∧ (∀ e, evs.getLast? = some e → e.node = .null ∧ e.nodeFront = .null) :=
  ⟨Reachable.construct demoWorld (.obj 100) (.obj 1) none _ rfl,
    destroy_clears_then_detaches demoWorld _
      (Reachable.construct demoWorld (.obj 100) (.obj 1) none _ rfl)⟩

/-! ## The walker subscription -/

theorem reachable_setWalkers (s : Selection) (h : Reachable s) (walkers : List Ref) :
    Reachable (walkers.foldl Selection.setWalker s) := by
  induction walkers generalizing s with
  | nil => exact h
  | cons wk rest ih => exact ih _ (Reachable.setWalker s wk h)

/-- C11: counting the registrations of the tracker's handler on each walker
(`on` adds one, `off` removes it), after construction and after any sequence
of `setWalker` calls (new walkers, the same walker again, `null`) the handler
is registered exactly once on the attached walker, if there is one, and not at
all on any other walker. -/
theorem setWalker_single_subscription (w : World) (walker node : Ref) (track : Option Track)
    (s0 : Selection) (walkers : List Ref)
    (h0 : Selection.construct w walker node track = .ok s0) :
    (∀ wk, (walkers.foldl Selection.setWalker s0)._walker = .obj wk →
        (walkers.foldl Selection.setWalker s0).listening.count wk = 1)
    ∧ (∀ wk, (walkers.foldl Selection.setWalker s0)._walker ≠ .obj wk →
        (walkers.foldl Selection.setWalker s0).listening.count wk = 0) := by
  have hco := coherent_of_reachable _
    (reachable_setWalkers s0 (Reachable.construct w walker node track s0 h0) walkers)
  obtain ⟨_, hl⟩ := hco
  constructor
  · intro wk hwk
    rw [hl, hwk]
    simp
  · intro wk hwk
    rw [hl]
    cases hcur : (walkers.foldl Selection.setWalker s0)._walker with
    | undefined => simp
    | null => simp
    | obj cur =>
      have hne : cur ≠ wk := by
        intro hEq
        exact hwk (by rw [hcur, hEq])
      rw [List.count_eq_zero]
      intro hmem
      exact hne (List.mem_singleton.mp hmem).symm

theorem setWalker_single_subscription_witness :
    Selection.construct demoWorld (.obj 100) .null none
        = .ok ((Selection.proto ⟨true, true⟩).setWalker (.obj 100) |>.setNodeFront demoWorld
            .null (some "unknown"))
    ∧ ((∀ wk, ([Ref.obj 101, .obj 101, .null, .obj 100].foldl Selection.setWalker
          ((Selection.proto ⟨true, true⟩).setWalker (.obj 100) |>.setNodeFront demoWorld
            .null (some "unknown")))._walker = .obj wk →
        ([Ref.obj 101, .obj 101, .null, .obj 100].foldl Selection.setWalker
          ((Selection.proto ⟨true, true⟩).setWalker (.obj 100) |>.setNodeFront demoWorld
            .null (some "unknown"))).listening.count wk = 1)
      ∧ (∀ wk, ([Ref.obj 101, .obj 101, .null, .obj 100].foldl Selection.setWalker
          ((Selection.proto ⟨true, true⟩).setWalker (.obj 100) |>.setNodeFront demoWorld
            .null (some "unknown")))._walker ≠ .obj wk →
        ([Ref.obj 101, .obj 101, .null, .obj 100].foldl Selection.setWalker
          ((Selection.proto ⟨true, true⟩).setWalker (.obj 100) |>.setNodeFront demoWorld
            .null (some "unknown"))).listening.count wk = 0)) :=
  ⟨rfl, setWalker_single_subscription demoWorld (.obj 100) .null none _
    [.obj 101, .obj 101, .null, .obj 100] rfl⟩

/-! ## Setting a node without a walker -/

/-- C12, as stated, fails: on a tracker constructed without a walker,
`setNode(node 1)` does not return; it raises a `TypeError`. -/
theorem setNode_without_walker_raises_at_null_walker :
    (Selection.construct demoWorld .null .null none).map (fun s => s._walker) = .ok .null
    ∧ (Selection.construct demoWorld .null .null none).bind
        (fun s => s.setNode demoWorld (.obj 1) (some "pick"))
      = .error (.exn .typeError) := by
  decide

/-- C12, amended: `setNode(x, reason)` with a non-null native entity `x` while
no walker is attached does not return: it raises a `TypeError`, from reading
`frontForRawNode` off the missing walker, which is the first thing the call
does, so nothing has been emitted or assigned by then. -/
theorem setNode_without_walker_raises (w : World) (s : Selection) (x : Nat)
    (reason : Option String) (hw : s._walker.truthy = false) :
    s.setNode w (.obj x) reason = .error (.exn .typeError)
    ∧ ∀ s', s.setNode w (.obj x) reason ≠ .ok s' := by
  have key : s.setNode w (.obj x) reason = .error (.exn .typeError) := by
    unfold Selection.setNode
    cases hwk : s._walker with
    | undefined => rfl
    | null => rfl
    | obj wk =>
      rw [hwk] at hw
      simp [Ref.truthy] at hw
  refine ⟨key, ?_⟩
  intro s' h
  rw [key] at h
  exact Except.noConfusion h

theorem setNode_without_walker_raises_witness :
    (Selection.proto ⟨true, true⟩)._walker.truthy = false
    ∧ ((Selection.proto ⟨true, true⟩).setNode demoWorld (.obj 1) (some "pick")
        = .error (.exn .typeError)
      ∧ ∀ s', (Selection.proto ⟨true, true⟩).setNode demoWorld (.obj 1) (some "pick")
        ≠ .ok s') :=
  ⟨rfl, setNode_without_walker_raises demoWorld (Selection.proto ⟨true, true⟩) 1
    (some "pick") rfl⟩

/-! ## What each call does to the two handles and to `reason` -/

theorem setNodeFront_node (w : World) (s : Selection) (v : Ref) (reason : Option String) :
    (s.setNodeFront w v reason)._node = if v ≠ s._nodeFront then rawOf w v else s._node := by
  by_cases h : v = s._nodeFront
  · subst h
    rw [setNodeFront_same]
    simp
  · rw [setNodeFront_changed w s v reason h, if_pos h]

theorem setNodeFront_reason (w : World) (s : Selection) (v : Ref) (reason : Option String) :
    (s.setNodeFront w v reason).reason = some (reason.getD "unknown") := by
  by_cases h : v = s._nodeFront
  · subst h
    rw [setNodeFront_same]
  · rw [setNodeFront_changed w s v reason h]

theorem setNode_ok_cases (w : World) (s s' : Selection) (x : Ref) (reason : Option String)
    (h : s.setNode w x reason = .ok s') :
    ∃ v, Call.handle (.setNode w x reason) s = some (w, v)
      ∧ s' = s.setNodeFront w v (some (reason.getD "unknown")) := by
  unfold Selection.setNode at h
  cases hx : x.truthy
  · simp [hx, bind, Except.bind, pure, Except.pure] at h
    exact ⟨x, by simp [Call.handle, hx], h.symm⟩
  · cases hw : s._walker <;>
      simp [hx, hw, bind, Except.bind, pure, Except.pure, throw, throwThe,
        MonadExceptOf.throw] at h
    exact ⟨_, by simp [Call.handle, hx, hw], h.symm⟩

theorem handle_setNode_world (w w' : World) (x : Ref) (reason : Option String)
    (s : Selection) (v : Ref) (h : Call.handle (.setNode w x reason) s = some (w', v)) :
    w' = w := by
  simp only [Call.handle] at h
  cases hx : x.truthy <;> cases hw : s._walker <;> simp [hx, hw] at h <;> exact h.1.symm

theorem call_handles (c : Call) (t t' : Selection) (h : c.run t = .ok t') :
    t'._node = (match c.handle t with
      | some (w, v) => if v ≠ t._nodeFront then rawOf w v else t._node
      | none => t._node)
    ∧ t'._nodeFront = (match c.handle t with
      | some (_, v) => v
      | none => t._nodeFront) := by
  cases c with
  | setNode w x reason =>
    obtain ⟨v, hv, hs⟩ := setNode_ok_cases w t t' x reason h
    rw [hv, hs]
    exact ⟨setNodeFront_node _ _ _ _, setNodeFront_nodeFront _ _ _ _⟩
  | setNodeFront w v reason =>
    have hs : t' = t.setNodeFront w v reason := (Except.ok.inj h).symm
    rw [hs]
    exact ⟨setNodeFront_node _ _ _ _, setNodeFront_nodeFront _ _ _ _⟩
  | setWalker walker =>
    have hs : t' = t.setWalker walker := (Except.ok.inj h).symm
    rw [hs]
    exact ⟨(setWalker_fields t walker).1, (setWalker_fields t walker).2.1⟩
  | destroy w =>
    have h2 : t.destroy w = .ok t' := h
    rw [destroy_ok] at h2
    rw [← Except.ok.inj h2]
    have hf := setWalker_fields (t.setNodeFront w .null (some "unknown")) .null
    exact ⟨hf.1.trans (setNodeFront_node _ _ _ _), hf.2.1.trans (setNodeFront_nodeFront _ _ _ _)⟩
  | mutations w fuel ms =>
    obtain ⟨evs, he⟩ := onMutations_fields w fuel t t' ms h
    rw [he]
    exact ⟨rfl, rfl⟩

theorem runCalls_cons_ok (c : Call) (cs : List Call) (s0 s : Selection)
    (h : runCalls (c :: cs) s0 = .ok s) :
    ∃ s1, c.run s0 = .ok s1 ∧ runCalls cs s1 = .ok s := by
  cases h1 : c.run s0 with
  | error e => simp [runCalls, h1, bind, Except.bind] at h
  | ok s1 =>
    refine ⟨s1, rfl, ?_⟩
    simpa [runCalls, h1, bind, Except.bind] using h

theorem reachable_call (c : Call) (t t' : Selection) (ht : Reachable t)
    (h : c.run t = .ok t') : Reachable t' := by
  cases c with
  | setNode w x reason => exact Reachable.setNode w t x reason t' ht h
  | setNodeFront w v reason =>
    rw [← Except.ok.inj h]
    exact Reachable.setNodeFront w t v reason ht
  | setWalker walker =>
    rw [← Except.ok.inj h]
    exact Reachable.setWalker t walker ht
  | destroy w => exact Reachable.destroy w t t' ht h
  | mutations w fuel ms => exact Reachable.onMutations w fuel t ms t' ht h

theorem reachable_runCalls (cs : List Call) (s0 s : Selection) (h0 : Reachable s0)
    (h : runCalls cs s0 = .ok s) : Reachable s := by
  induction cs generalizing s0 with
  | nil =>
    rw [← Except.ok.inj h]
    exact h0
  | cons c cs ih =>
    obtain ⟨s1, h1, h2⟩ := runCalls_cons_ok c cs s0 s h
    exact ih s1 (reachable_call c s0 s1 h0 h1) h2

theorem node_eq_rawWhenSet (cs : List Call) (s0 s : Selection)
    (h : runCalls cs s0 = .ok s) : s._node = rawWhenSet cs s0 s0._node := by
  induction cs generalizing s0 with
  | nil =>
    rw [← Except.ok.inj h]
    rfl
  | cons c cs ih =>
    obtain ⟨s1, h1, h2⟩ := runCalls_cons_ok c cs s0 s h
    have hn := (call_handles c s0 s1 h1).1
    rw [ih s1 h2, hn]
    simp only [rawWhenSet, h1]

/-- C13: in every state reached from construction by calls of `setNode`,
`setNodeFront`, `setWalker`, `destroy` and mutation batches, a `null`
`nodeFront` goes with a `null` `node`, and `node` is the value `rawNode()`
returned when the held proxy handle was set (at construction, or at the last
call that set a handle other than the one then held); every call either leaves
both `node` and `nodeFront` as they were or assigns both, `nodeFront` the new
handle `v` and `node` its `rawNode()` (or `null` for `v = null`). -/
theorem handles_in_lock_step (w0 : World) (walker node : Ref) (track : Option Track)
    (s0 s : Selection) (cs : List Call)
    (h0 : Selection.construct w0 walker node track = .ok s0)
    (hrun : runCalls cs s0 = .ok s) :
    (s._nodeFront = .null → s._node = .null)
    ∧ (∀ p, s0._nodeFront = .obj p → s0._node = w0.rawNode p)
    ∧ s._node = rawWhenSet cs s0 s0._node
    ∧ (∀ (c : Call) (t t' : Selection), c.run t = .ok t' →
        (t'._node = t._node ∧ t'._nodeFront = t._nodeFront)
        ∨ ∃ w v, c.handle t = some (w, v) ∧ v ≠ t._nodeFront
            ∧ t'._nodeFront = v ∧ t'._node = rawOf w v)
    ∧ (∀ (w : World) (p : Nat), rawOf w (.obj p) = w.rawNode p)
    ∧ ∀ (w : World), rawOf w .null = .null := by
  have hreach := reachable_runCalls cs s0 s (Reachable.construct w0 walker node track s0 h0) hrun
  refine ⟨(coherent_of_reachable s hreach).1, ?_, node_eq_rawWhenSet cs s0 s hrun, ?_,
    fun _ _ => rfl, fun _ => rfl⟩
  · intro p hp
    have hc : Call.run (.setNode w0 (if node = .undefined then Ref.null else node) none)
        ((Selection.proto (track.getD ⟨true, true⟩)).setWalker walker) = .ok s0 := h0
    obtain ⟨hn, hf⟩ := call_handles _ _ _ hc
    have hproto : ((Selection.proto (track.getD ⟨true, true⟩)).setWalker walker)._nodeFront
        = .undefined := (setWalker_fields _ _).2.1
    cases hh : Call.handle (.setNode w0 (if node = .undefined then Ref.null else node) none)
        ((Selection.proto (track.getD ⟨true, true⟩)).setWalker walker) with
    | none =>
      rw [hh] at hf
      rw [hf, hproto] at hp
      exact Ref.noConfusion hp
    | some wv =>
      obtain ⟨w, v⟩ := wv
      rw [hh] at hf hn
      have hw : w = w0 := handle_setNode_world _ _ _ _ _ _ hh
      have hv : v = .obj p := by
        have hf2 : s0._nodeFront = v := hf
        rw [← hf2]
        exact hp
      have hne : v ≠ ((Selection.proto (track.getD ⟨true, true⟩)).setWalker walker)._nodeFront := by
        rw [hproto, hv]
        exact fun h => Ref.noConfusion h
      simp only [hne, if_true, ne_eq, not_false_eq_true] at hn
      rw [hn, hv, hw]
      rfl
  · intro c t t' hc
    obtain ⟨hn, hf⟩ := call_handles c t t' hc
    cases hh : c.handle t with
    | none =>
      rw [hh] at hn hf
      exact Or.inl ⟨hn, hf⟩
    | some wv =>
      obtain ⟨w, v⟩ := wv
      rw [hh] at hn hf
      by_cases hv : v = t._nodeFront
      · left
        have hn2 : t'._node = if v ≠ t._nodeFront then rawOf w v else t._node := hn
        have hf2 : t'._nodeFront = v := hf
        rw [if_neg (not_not.mpr hv)] at hn2
        exact ⟨hn2, hf2.trans hv⟩
      · right
        have hn2 : t'._node = if v ≠ t._nodeFront then rawOf w v else t._node := hn
        rw [if_pos hv] at hn2
        exact ⟨w, v, rfl, hv, hf, hn2⟩

theorem handles_in_lock_step_witness :
    Selection.construct demoWorld (.obj 100) (.obj 1) none
        = .ok ((Selection.proto ⟨true, true⟩).setWalker (.obj 100) |>.setNodeFront demoWorld
            (.obj 11) (some "unknown"))
    ∧ runCalls [.setNodeFront demoWorld (.obj 12) none,
          .mutations demoWorld 5 [⟨"childList", .obj 11⟩], .setWalker .null]
        ((Selection.proto ⟨true, true⟩).setWalker (.obj 100) |>.setNodeFront demoWorld
            (.obj 11) (some "unknown"))
        = .ok ((((Selection.proto ⟨true, true⟩).setWalker (.obj 100) |>.setNodeFront demoWorld
            (.obj 11) (some "unknown")).setNodeFront demoWorld (.obj 12) none
              |>.emit "detached" [.ref (.obj 1)]
              |>.emit "detached-front" [.ref (.obj 11)]).setWalker .null)
    ∧ (((((Selection.proto ⟨true, true⟩).setWalker (.obj 100) |>.setNodeFront demoWorld
            (.obj 11) (some "unknown")).setNodeFront demoWorld (.obj 12) none
              |>.emit "detached" [.ref (.obj 1)]
              |>.emit "detached-front" [.ref (.obj 11)]).setWalker .null)._node
        = rawWhenSet [.setNodeFront demoWorld (.obj 12) none,
          .mutations demoWorld 5 [⟨"childList", .obj 11⟩], .setWalker .null]
          ((Selection.proto ⟨true, true⟩).setWalker (.obj 100) |>.setNodeFront demoWorld
            (.obj 11) (some "unknown"))
          ((Selection.proto ⟨true, true⟩).setWalker (.obj 100) |>.setNodeFront demoWorld
            (.obj 11) (some "unknown"))._node) :=
  ⟨rfl, rfl,
    (handles_in_lock_step demoWorld (.obj 100) (.obj 1) none _ _
      [.setNodeFront demoWorld (.obj 12) none,
        .mutations demoWorld 5 [⟨"childList", .obj 11⟩], .setWalker .null] rfl rfl).2.2.1⟩

/-- C14: a call `setNodeFront(v, r)` or `setNode(x, r)` that returns leaves
`reason` equal to `r`, or to "unknown" when `r` was not supplied, whether or
not the selection changed; `setWalker` and the mutation handler keep `reason`
as it is, and `destroy()`, which calls `setNode(null)`, leaves "unknown". -/
theorem reason_retained (w w2 : World) (fuel : Nat) (s s1 s2 : Selection) (v x walker : Ref)
    (r : Option String) (ms : List MutationRecord)
    (hset : s.setNode w x r = .ok s1) (hmut : s._onMutations w2 fuel ms = .ok s2) :
    (s.setNodeFront w v r).reason = some (r.getD "unknown")
    ∧ ((s.setNodeFront w v r).setNodeFront w2 v r).reason = some (r.getD "unknown")
    ∧ s1.reason = some (r.getD "unknown")
    ∧ (s.setWalker walker).reason = s.reason
    ∧ s2.reason = s.reason
    ∧ ∃ s3, s.destroy w = .ok s3 ∧ s3.reason = some "unknown" := by
  refine ⟨setNodeFront_reason _ _ _ _, setNodeFront_reason _ _ _ _, ?_, ?_, ?_, ?_⟩
  · obtain ⟨v', _, hs⟩ := setNode_ok_cases w s s1 x r hset
    rw [hs, setNodeFront_reason]
    rfl
  · unfold Selection.setWalker
    cases s._walker <;> cases walker <;> rfl
  · obtain ⟨evs, he⟩ := onMutations_fields w2 fuel s s2 ms hmut
    rw [he]
  · refine ⟨_, destroy_ok w s, ?_⟩
    have h1 : ((s.setNodeFront w .null (some "unknown")).setWalker .null).reason
        = (s.setNodeFront w .null (some "unknown")).reason := by
      unfold Selection.setWalker
      cases (s.setNodeFront w .null (some "unknown"))._walker <;> rfl
    rw [h1, setNodeFront_reason]
    rfl

theorem reason_retained_witness :
    holding.setNode demoWorld (.obj 1) none
        = .ok (holding.setNodeFront demoWorld (.obj 11) (some "unknown"))
    ∧ holding._onMutations demoWorld 5 [⟨"attributes", .obj 11⟩]
        = .ok (holding.emit "attribute-changed" [])
    ∧ ((holding.setNodeFront demoWorld (.obj 12) none).reason
          = some ((none : Option String).getD "unknown")
      ∧ ((holding.setNodeFront demoWorld (.obj 12) none).setNodeFront demoWorld
          (.obj 12) none).reason = some ((none : Option String).getD "unknown")
      ∧ (holding.setNodeFront demoWorld (.obj 11) (some "unknown")).reason
          = some ((none : Option String).getD "unknown")
      ∧ (holding.setWalker .null).reason = holding.reason
      ∧ (holding.emit "attribute-changed" []).reason = holding.reason
      ∧ ∃ s3, holding.destroy demoWorld = .ok s3 ∧ s3.reason = some "unknown") :=
  ⟨rfl, rfl, reason_retained demoWorld demoWorld 5 holding _ _ (.obj 12) (.obj 1) .null none
    [⟨"attributes", .obj 11⟩] rfl rfl⟩

theorem scanMutations_connected (w : World) (fuel : Nat) (s : Selection) (c : Val)
    (hc : s.isConnected w fuel = .ok c) (htrue : c.truthy = true) :
    ∀ (ms : List MutationRecord) (a d : Bool) (p : Ref),
      Selection.scanMutations w fuel s ms (a, d, p) =
        .ok (a || hasType "attributes" ms, d, p) := by
  intro ms
  induction ms with
  | nil => intro a d p; simp [Selection.scanMutations, hasType]; rfl
  | cons m rest ih =>
    intro a d p
    cases h1 : (m.type == "attributes") <;> cases h2 : (m.type == "childList") <;>
      cases a <;> cases d <;>
      simp [Selection.scanMutations, hasType, h1, h2, hc, htrue, ih,
        bind, Except.bind, pure, Except.pure]

theorem onMutations_returns (w : World) (fuel : Nat) (s : Selection)
    (ms : List MutationRecord) (c : Val) (hc : s.isConnected w fuel = .ok c) :
    ∃ t, s._onMutations w fuel ms = .ok t := by
  cases ht : c.truthy
  · exact ⟨_, onMutations_of_scan w fuel s ms _ _ _
      (scanMutations_disconnected w fuel s c hc ht ms false false .null)⟩
  · exact ⟨_, onMutations_of_scan w fuel s ms _ _ _
      (scanMutations_connected w fuel s c hc ht ms false false .null)⟩

/-- C15: handling a mutation batch leaves `node`, `nodeFront`, `reason` and
the attached walker as they were, also when `detached` and `detached-front`
are emitted; the handler only appends to the log of emitted events (and it
returns whenever `isConnected()` does). -/
theorem onMutations_frame (w : World) (fuel : Nat) (s s' : Selection)
    (ms : List MutationRecord) (h : s._onMutations w fuel ms = .ok s') :
    s'._node = s._node ∧ s'._nodeFront = s._nodeFront ∧ s'.reason = s.reason
    ∧ s'._walker = s._walker ∧ s'.track = s.track ∧ s'.listening = s.listening
    ∧ (∃ evs, s'.emitted = s.emitted ++ evs)
    ∧ ∀ c, s.isConnected w fuel = .ok c → ∃ t, s._onMutations w fuel ms = .ok t := by
  obtain ⟨evs, he⟩ := onMutations_fields w fuel s s' ms h
  rw [he]
  exact ⟨rfl, rfl, rfl, rfl, rfl, rfl, ⟨evs, rfl⟩,
    fun c hc => onMutations_returns w fuel s ms c hc⟩

theorem onMutations_frame_witness :
    stray._onMutations demoWorld 5 [⟨"childList", .obj 11⟩]
        = .ok ((stray.emit "detached" [.ref (.obj 1)]).emit "detached-front" [.ref (.obj 11)])
    ∧ (((stray.emit "detached" [.ref (.obj 1)]).emit "detached-front" [.ref (.obj 11)])._node
          = stray._node
      ∧ ((stray.emit "detached" [.ref (.obj 1)]).emit "detached-front"
          [.ref (.obj 11)])._nodeFront = stray._nodeFront
      ∧ ((stray.emit "detached" [.ref (.obj 1)]).emit "detached-front"
          [.ref (.obj 11)]).reason = stray.reason
      ∧ ((stray.emit "detached" [.ref (.obj 1)]).emit "detached-front"
          [.ref (.obj 11)])._walker = stray._walker
      ∧ ((stray.emit "detached" [.ref (.obj 1)]).emit "detached-front"
          [.ref (.obj 11)]).track = stray.track
      ∧ ((stray.emit "detached" [.ref (.obj 1)]).emit "detached-front"
          [.ref (.obj 11)]).listening = stray.listening
      ∧ (∃ evs, ((stray.emit "detached" [.ref (.obj 1)]).emit "detached-front"
          [.ref (.obj 11)]).emitted = stray.emitted ++ evs)
      ∧ ∀ c, stray.isConnected demoWorld 5 = .ok c →
          ∃ t, stray._onMutations demoWorld 5 [⟨"childList", .obj 11⟩] = .ok t) :=
  ⟨rfl, onMutations_frame demoWorld 5 stray _ [⟨"childList", .obj 11⟩] rfl⟩

/-! ## Connectivity -/

theorem nthParent_not_object (w : World) (r : Ref) (hr : r.truthy = false) :
    ∀ k, nthParent w k r = r := by
  intro k
  cases k with
  | zero => rfl
  | succ k =>
    cases r with
    | undefined => rfl
    | null => rfl
    | obj n => simp [Ref.truthy] at hr

theorem parentWalk_finite (w : World) (wk : Nat) :
    ∀ (n fuel : Nat) (r : Ref), (nthParent w n r).truthy = false → n ≤ fuel →
      ∃ b, Selection.parentWalk w (.obj wk) fuel r = .ok b
        ∧ (b = true ↔ ∃ k, (nthParent w k r).truthy = true
            ∧ w.rootNode wk = nthParent w k r) := by
  intro n
  induction n with
  | zero =>
    intro fuel r hr _
    have hr0 : r.truthy = false := hr
    refine ⟨false, ?_, ?_⟩
    · cases r with
      | undefined => cases fuel <;> rfl
      | null => cases fuel <;> rfl
      | obj m => simp [Ref.truthy] at hr0
    · constructor
      · intro h; exact Bool.noConfusion h
      · rintro ⟨k, hk, _⟩
        rw [nthParent_not_object w r hr0 k, hr0] at hk
        exact Bool.noConfusion hk
  | succ n ih =>
    intro fuel r hr hfuel
    cases r with
    | undefined =>
      refine ⟨false, by cases fuel <;> rfl, ?_⟩
      constructor
      · intro h; exact Bool.noConfusion h
      · rintro ⟨k, hk, _⟩
        rw [nthParent_not_object w .undefined rfl k] at hk
        exact Bool.noConfusion hk
    | null =>
      refine ⟨false, by cases fuel <;> rfl, ?_⟩
      constructor
      · intro h; exact Bool.noConfusion h
      · rintro ⟨k, hk, _⟩
        rw [nthParent_not_object w .null rfl k] at hk
        exact Bool.noConfusion hk
    | obj m =>
      obtain ⟨fuel', rfl⟩ : ∃ fuel', fuel = fuel' + 1 :=
        ⟨fuel - 1, by omega⟩
      by_cases hroot : Ref.obj m = w.rootNode wk
      · refine ⟨true, ?_, ?_⟩
        · simp [Selection.parentWalk, hroot]
          rfl
        · constructor
          · intro _
            exact ⟨0, rfl, hroot.symm⟩
          · intro _; rfl
      · have hr2 : (nthParent w n (w.parentNode m)).truthy = false := hr
        obtain ⟨b, hb, hiff⟩ := ih fuel' (w.parentNode m) hr2 (by omega)
        refine ⟨b, ?_, ?_⟩
        · simp [Selection.parentWalk, hroot]
          exact hb
        · rw [hiff]
          constructor
          · rintro ⟨k, hk, hk2⟩
            exact ⟨k + 1, hk, hk2⟩
          · rintro ⟨k, hk, hk2⟩
            cases k with
            | zero => exact absurd hk2.symm hroot
            | succ k => exact ⟨k, hk, hk2⟩

/-- C16: for a selection whose proxy handle has a truthy `actorID` and whose
`rawNode()` is `null`, with a walker attached and a parent chain that ends
after `n` steps, `isConnected()` returns (given at least `n` iterations) a
boolean, which is `true` exactly when the walker's `rootNode` is identical to
the proxy handle or to a handle reached from it by following `parentNode()`,
and `false` when the chain is exhausted without meeting the root. -/
theorem isConnected_remote_walk (w : World) (fuel : Nat) (s : Selection) (f wk n : Nat)
    (hfront : s._nodeFront = .obj f) (hactor : (w.actorID f).truthy = true)
    (hraw : w.rawNode f = .null) (hwalker : s._walker = .obj wk)
    (hfinite : (nthParent w n (.obj f)).truthy = false) (hfuel : n ≤ fuel) :
    ∃ b, s.isConnected w fuel = .ok (.bool b)
      ∧ (b = true ↔ ∃ k, (nthParent w k (.obj f)).truthy = true
          ∧ w.rootNode wk = nthParent w k (.obj f)) := by
  obtain ⟨b, hb, hiff⟩ := parentWalk_finite w wk n fuel (.obj f) hfinite hfuel
  refine ⟨b, ?_, hiff⟩
  simp [Selection.isConnected, hfront, hactor, hraw, Ref.truthy, hwalker, hb, Except.map]

theorem isConnected_remote_walk_witness :
    remote._nodeFront = .obj 15 ∧ (demoWorld.actorID 15).truthy = true
    ∧ demoWorld.rawNode 15 = .null ∧ remote._walker = .obj 100
    ∧ (nthParent demoWorld 2 (.obj 15)).truthy = false ∧ 2 ≤ 2
    ∧ ∃ b, remote.isConnected demoWorld 2 = .ok (.bool b)
      ∧ (b = true ↔ ∃ k, (nthParent demoWorld k (.obj 15)).truthy = true
          ∧ demoWorld.rootNode 100 = nthParent demoWorld k (.obj 15)) :=
  ⟨rfl, by decide, rfl, rfl, rfl, by decide,
    isConnected_remote_walk demoWorld 2 remote 15 100 2 rfl (by decide) rfl rfl rfl
      (by decide)⟩

/-- C17: for a selection whose proxy handle has a truthy `actorID` and a
truthy `rawNode()`, when an access to the native side raises during the
containment test (resolving the owning document, reading its `defaultView`,
reading its `documentElement`, or calling `contains`), `isConnected()` returns
`false` and raises nothing. -/
theorem isConnected_native_failure (w : World) (fuel : Nat) (s : Selection) (f : Nat)
    (hfront : s._nodeFront = .obj f) (hactor : (w.actorID f).truthy = true)
    (hraw : (w.rawNode f).truthy = true)
    (hfail : (∃ e, s.document w = .error e)
      ∨ (∃ d e, s.document w = .ok (.obj d) ∧ w.defaultView d = .error e)
      ∨ (∃ d v e, s.document w = .ok (.obj d) ∧ w.defaultView d = .ok v ∧ v.truthy = true
          ∧ w.documentElement d = .error e)
      ∨ (∃ d v root e, s.document w = .ok (.obj d) ∧ w.defaultView d = .ok v
          ∧ v.truthy = true ∧ w.documentElement d = .ok root
          ∧ onObject root (fun el => w.contains el (w.rawNode f)) = .error e)) :
    s.isConnected w fuel = .ok (.bool false) := by
  have htest : ∃ e, Selection.containmentTest w s (w.rawNode f) = .error e := by
    rcases hfail with ⟨e, h1⟩ | ⟨d, e, h1, h2⟩ | ⟨d, v, e, h1, h2, h3, h4⟩
      | ⟨d, v, root, e, h1, h2, h3, h4, h5⟩
    · exact ⟨e, by simp [Selection.containmentTest, h1, bind, Except.bind]⟩
    · exact ⟨e, by simp [Selection.containmentTest, h1, h2, bind, Except.bind]⟩
    · exact ⟨e, by simp [Selection.containmentTest, h1, h2, h3, h4, bind, Except.bind]⟩
    · exact ⟨e, by simp [Selection.containmentTest, h1, h2, h3, h4, h5, bind, Except.bind]⟩
  obtain ⟨e, he⟩ := htest
  simp [Selection.isConnected, hfront, hactor, hraw, he]
  rfl

theorem isConnected_native_failure_witness :
    holding._nodeFront = .obj 11 ∧ (deadWorld.actorID 11).truthy = true
    ∧ (deadWorld.rawNode 11).truthy = true
    ∧ ((∃ e, holding.document deadWorld = .error e)
      ∨ (∃ d e, holding.document deadWorld = .ok (.obj d) ∧ deadWorld.defaultView d = .error e)
      ∨ (∃ d v e, holding.document deadWorld = .ok (.obj d) ∧ deadWorld.defaultView d = .ok v
          ∧ v.truthy = true ∧ deadWorld.documentElement d = .error e)
      ∨ (∃ d v root e, holding.document deadWorld = .ok (.obj d)
          ∧ deadWorld.defaultView d = .ok v ∧ v.truthy = true
          ∧ deadWorld.documentElement d = .ok root
          ∧ onObject root (fun el => deadWorld.contains el (deadWorld.rawNode 11))
              = .error e))
    ∧ holding.isConnected deadWorld 0 = .ok (.bool false) :=
  ⟨rfl, by decide, by decide, Or.inl ⟨.deadObject, rfl⟩,
    isConnected_native_failure deadWorld 0 holding 11 rfl (by decide) (by decide)
      (Or.inl ⟨.deadObject, rfl⟩)⟩

/-! ## Predicates -/

/-- C18: `isRoot()` holds exactly when `isNode()` holds, `isConnected()` holds
and the proxy handle's `isDocumentElement` flag is truthy; and whenever
`isConnected()` returns a falsy value, `isRoot()` returns a falsy value too. -/
theorem isRoot_iff (w : World) (fuel : Nat) (s : Selection) :
    (holds (s.isRoot w fuel) = true ↔
      s.isNode w = true ∧ holds (s.isConnected w fuel) = true
        ∧ ∃ f, s._nodeFront = .obj f ∧ (w.isDocumentElement f).truthy = true)
    ∧ ∀ c, s.isConnected w fuel = .ok c → c.truthy = false →
        ∃ v, s.isRoot w fuel = .ok v ∧ v.truthy = false := by
  constructor
  · cases hn : s.isNode w
    · simp [Selection.isRoot, hn, holds, pure, Except.pure, Val.truthy]
    · cases hc : s.isConnected w fuel with
      | error e => simp [Selection.isRoot, hn, hc, holds, bind, Except.bind]
      | ok c =>
        cases ht : c.truthy
        · simp [Selection.isRoot, hn, hc, holds, bind, Except.bind, ht, pure, Except.pure]
        · cases hf : s._nodeFront <;>
            simp [Selection.isRoot, hn, hc, holds, bind, Except.bind, ht, hf, pure,
              Except.pure, throw, throwThe, MonadExceptOf.throw]
  · intro c hc ht
    cases hn : s.isNode w
    · exact ⟨.bool false, by simp [Selection.isRoot, hn, pure, Except.pure], rfl⟩
    · exact ⟨c, by simp [Selection.isRoot, hn, hc, bind, Except.bind, ht, pure, Except.pure],
        ht⟩

/-- C19: with no current selection (`nodeFront` is `null`), with or without a
walker, `isNode()`, `isConnected()`, `isRoot()`, `isHTMLNode()` and the twelve
node-type predicates return `false` and the `window` and `document` getters
return `null`, none of them raising; and `isConnected()` returns `false` for a
proxy handle whose `actorID` is falsy. -/
theorem no_selection_predicates (w : World) (fuel : Nat) (s : Selection)
    (h : s._nodeFront = .null) :
    s.isNode w = false
    ∧ s.isConnected w fuel = .ok (.bool false)
    ∧ s.isRoot w fuel = .ok (.bool false)
    ∧ s.isHTMLNode w = .ok false
    ∧ (s.isElementNode w = .ok false ∧ s.isAttributeNode w = .ok false
      ∧ s.isTextNode w = .ok false ∧ s.isCDATANode w = .ok false
      ∧ s.isEntityRefNode w = .ok false ∧ s.isEntityNode w = .ok false
      ∧ s.isProcessingInstructionNode w = .ok false ∧ s.isCommentNode w = .ok false
      ∧ s.isDocumentNode w = .ok false ∧ s.isDocumentTypeNode w = .ok false
      ∧ s.isDocumentFragmentNode w = .ok false ∧ s.isNotationNode w = .ok false)
    ∧ s.window w = .ok .null
    ∧ s.document w = .ok .null
    ∧ ∀ (t : Selection) (f : Nat), t._nodeFront = .obj f → (w.actorID f).truthy = false →
        t.isConnected w fuel = .ok (.bool false) := by
  have hn : s.isNode w = false := by simp [Selection.isNode, h, Ref.truthy]
  have hty : ∀ c, Selection.nodeTypeIs w s c = .ok false := by
    intro c
    simp [Selection.nodeTypeIs, hn]
    rfl
  refine ⟨hn, isConnected_no_selection w fuel s h, ?_, ?_, ?_, ?_, ?_, ?_⟩
  · simp [Selection.isRoot, hn]
    rfl
  · simp [Selection.isHTMLNode, hn]
    rfl
  · exact ⟨hty _, hty _, hty _, hty _, hty _, hty _, hty _, hty _, hty _, hty _, hty _, hty _⟩
  · simp [Selection.window, hn]
    rfl
  · simp [Selection.document, hn]
    rfl
  · intro t f hf ha
    simp [Selection.isConnected, hf, ha]
    rfl

theorem no_selection_predicates_witness :
    (Selection.proto ⟨true, true⟩ |>.setNodeFront demoWorld .null none)._nodeFront = .null
    ∧ ((Selection.proto ⟨true, true⟩ |>.setNodeFront demoWorld .null none).isNode demoWorld
        = false
      ∧ (Selection.proto ⟨true, true⟩ |>.setNodeFront demoWorld .null none).isConnected
          demoWorld 0 = .ok (.bool false)
      ∧ (Selection.proto ⟨true, true⟩ |>.setNodeFront demoWorld .null none).isRoot
          demoWorld 0 = .ok (.bool false)) :=
  ⟨rfl,
    (no_selection_predicates demoWorld 0
      (Selection.proto ⟨true, true⟩ |>.setNodeFront demoWorld .null none) rfl).1,
    (no_selection_predicates demoWorld 0
      (Selection.proto ⟨true, true⟩ |>.setNodeFront demoWorld .null none) rfl).2.1,
    (no_selection_predicates demoWorld 0
      (Selection.proto ⟨true, true⟩ |>.setNodeFront demoWorld .null none) rfl).2.2.1⟩

/-- C20, as the code behaves: with the DOM's constants (comment 8, processing
instruction 7), `isCommentNode()` is `false` for a selected live comment node
(front 12) and `true` for a selected processing instruction (front 13); it
compares with `PROCESSING_INSTRUCTION_NODE`, as `isProcessingInstructionNode()`
does. -/
theorem isCommentNode_tests_processing_instruction :
    (stray.isNode demoWorld = true
      ∧ demoWorld.nodeType 12 = demoWorld.nsIDOMNode.COMMENT_NODE
      ∧ stray.isCommentNode demoWorld = .ok false)
    ∧ (instruction.isNode demoWorld = true
      ∧ demoWorld.nodeType 13 = demoWorld.nsIDOMNode.PROCESSING_INSTRUCTION_NODE
      ∧ instruction.isCommentNode demoWorld = .ok true)
    ∧ demoWorld.nsIDOMNode.COMMENT_NODE ≠ demoWorld.nsIDOMNode.PROCESSING_INSTRUCTION_NODE := by
  decide

end Inspector
